import Mathlib

/-
Verification of the trading-bot core in src/bot.py (moe1209/Pope-Inator)
against its natural-language specification.

Monetary quantities and prices, Python floats in the source, are embedded
as exact rationals; Python dicts keyed by strings become association lists
or total functions with default 0, matching dict.get(k, 0).
-/

namespace Bot

/-- WHALE_THRESHOLD from src/bot.py:37 (100000 USD). -/
def WHALE_THRESHOLD : ℚ := 100000

/-- ARBITRAGE_THRESHOLD from src/bot.py:38 (0.05, a 5 percent price difference). -/
def ARBITRAGE_THRESHOLD : ℚ := 5 / 100

/-- SPREAD_TARGET from src/bot.py:39 (0.02, a 2 percent spread for market making). -/
def SPREAD_TARGET : ℚ := 2 / 100

/-- REBALANCE_INTERVAL from src/bot.py:40 (3600 seconds). -/
def REBALANCE_INTERVAL : ℕ := 3600

/-- Python `int(q)` on a rational: truncation toward zero, as in
`int(amount * 1e9)` at src/bot.py:91.  `q.den` is positive, so T-division
of the numerator by the denominator is exactly truncation toward zero. -/
def pyInt (q : ℚ) : ℤ :=
  Int.tdiv q.num q.den

/-- The payload of the solana `transfer(TransferParams(...))` instruction built
at src/bot.py:88-92: a native transfer of `lamports` from `from_pubkey` to
`to_pubkey`. -/
structure TransferParams where
  from_pubkey : String
  to_pubkey : String
  lamports : ℤ
  deriving DecidableEq, Repr

/-- The transaction `execute_trade` builds (src/bot.py:88-92): a transfer of
`int(amount * 1e9)` lamports from the bot wallet to `token_address`.  The
`order_type` argument is accepted but never read, exactly as in the source. -/
def buildTradeTx (wallet token_address : String) (amount : ℚ)
    ( order_type : String) : TransferParams :=
  { from_pubkey := wallet
    to_pubkey := token_address
    lamports := pyInt (amount * 1000000000) }

/-- Outcome of one `solana_client.send_transaction` call (src/bot.py:93):
either an accepted submission carrying `signed_tx.value`, or an
`RPCException`. -/
inductive SubmitOutcome where
  | accepted (value : ℕ)
  | rpcError
  deriving DecidableEq, Repr

/-- The mutable trading state of an `AdvancedTrader` (src/bot.py:80-83):
`self.portfolio`, `self.open_orders`, `self.transaction_history`,
`self.trading_enabled`. -/
structure TraderState where
  portfolio : List (String × ℚ)
  open_orders : List (String × ℚ × String)
  transaction_history : List TransferParams
  trading_enabled : Bool
  deriving DecidableEq, Repr

/-- `AdvancedTrader.execute_trade` (src/bot.py:86-97).  The external
signer/RPC capability is the oracle `submit`, applied to the attempt index
and the built transaction.  The source body: build the transfer, call
`send_transaction` exactly once, return `signed_tx.value` on success and
`None` on `RPCException`.  It reads and writes none of `self.portfolio`,
`self.open_orders`, `self.transaction_history`, `self.trading_enabled`, so
the state passes through unchanged on every path.  The result triple is
(returned value, state after the call, number of submission attempts). -/
def execute_trade (wallet : String) (st : TraderState) (token_address : String)
    (amount : ℚ) ( order_type : String)
    (submit : ℕ → TransferParams → SubmitOutcome) :
    Option ℕ × TraderState × ℕ :=
  match submit 0 (buildTradeTx wallet token_address amount order_type) with
  | SubmitOutcome.accepted v => (some v, st, 1)
  | SubmitOutcome.rpcError => (none, st, 1)

theorem execute_trade_accepted (wallet : String) (st : TraderState)
    (token_address : String) (amount : ℚ) ( order_type : String)
    (submit : ℕ → TransferParams → SubmitOutcome) (v : ℕ)
    (hacc : submit 0 (buildTradeTx wallet token_address amount order_type)
      = SubmitOutcome.accepted v) :
    execute_trade wallet st token_address amount order_type submit
      = (some v, st, 1) := by
  unfold execute_trade
  rw [hacc]

theorem execute_trade_failed (wallet : String) (st : TraderState)
    (token_address : String) (amount : ℚ) ( order_type : String)
    (submit : ℕ → TransferParams → SubmitOutcome)
    (hfail : submit 0 (buildTradeTx wallet token_address amount order_type)
      = SubmitOutcome.rpcError) :
    execute_trade wallet st token_address amount order_type submit
      = (none, st, 1) := by
  unfold execute_trade
  rw [hfail]

/-- C1 counterexample.  With `trading_enabled = false`, `execute_trade`
still attempts exactly one submission, the submission succeeds, and no
Cancelled-style failure occurs: the claim that the call always fails with
Cancelled and that no submission is attempted is false. -/
theorem c1_cex_disabled_still_submits :
    execute_trade "WALLET" ⟨[("SOL", 5)], [], [], false⟩ "TOKEN" 1 "buy"
        (fun _ _ => SubmitOutcome.accepted 7)
      = (some 7, ⟨[("SOL", 5)], [], [], false⟩, 1)
    ∧ (⟨[("SOL", 5)], [], [], false⟩ : TraderState).trading_enabled = false :=
  ⟨rfl, rfl⟩

/-- C1 (amended): `execute_trade` never consults `trading_enabled`: even
with the switch off it attempts exactly one submission, returns the
accepted value when the submission is accepted, and leaves the trading
state (portfolio, open orders, transaction history) unchanged.  The switch
only terminates the strategy loops (src/bot.py:101,117,135). -/
theorem c1_execute_trade_ignores_trading_enabled (wallet : String)
    (st : TraderState) (token_address : String) (amount : ℚ)
    ( order_type : String) (submit : ℕ → TransferParams → SubmitOutcome)
    (v : ℕ) (hdis : st.trading_enabled = false)
    (hacc : submit 0 (buildTradeTx wallet token_address amount order_type)
      = SubmitOutcome.accepted v) :
    execute_trade wallet st token_address amount order_type submit
      = (some v, st, 1) := by
  unfold execute_trade
  rw [hacc]

/-- C1 witness: the amended theorem at a concrete disabled state. -/
theorem c1_witness :
    execute_trade "WALLET" ⟨[], [], [], false⟩ "TOKEN" 2 "sell"
        (fun _ _ => SubmitOutcome.accepted 11)
      = (some 11, ⟨[], [], [], false⟩, 1) :=
  c1_execute_trade_ignores_trading_enabled "WALLET" ⟨[], [], [], false⟩
    "TOKEN" 2 "sell" (fun _ _ => SubmitOutcome.accepted 11) 11 rfl rfl

/-- C2 counterexample.  An accepted submission leaves the portfolio and the
transaction history exactly as they were (here the history stays empty), so
the claim that `execute_trade` applies a portfolio adjustment and appends a
history record on acceptance is false. -/
theorem c2_cex_accept_no_mutation :
    execute_trade "WALLET" ⟨[("SOL", 5)], [], [], true⟩ "TOKEN" 1 "buy"
        (fun _ _ => SubmitOutcome.accepted 3)
      = (some 3, ⟨[("SOL", 5)], [], [], true⟩, 1)
    ∧ (⟨[("SOL", 5)], [], [], true⟩ : TraderState).transaction_history.length
        = 0 :=
  ⟨rfl, rfl⟩

/-- C2 (amended): `execute_trade` performs no state mutation on any path,
including an accepted submission: it returns the transaction id, and the
portfolio, open orders and transaction history after the call equal the
ones before it.  No code path in src/bot.py mutates the portfolio or
appends to the history at all. -/
theorem c2_accepted_submission_mutates_nothing (wallet : String)
    (st : TraderState) (token_address : String) (amount : ℚ)
    ( order_type : String) (submit : ℕ → TransferParams → SubmitOutcome)
    (v : ℕ)
    (hacc : submit 0 (buildTradeTx wallet token_address amount order_type)
      = SubmitOutcome.accepted v) :
    (execute_trade wallet st token_address amount order_type submit).1
        = some v
    ∧ (execute_trade wallet st token_address amount order_type submit).2.1.portfolio
        = st.portfolio
    ∧ (execute_trade wallet st token_address amount order_type submit).2.1.open_orders
        = st.open_orders
    ∧ (execute_trade wallet st token_address amount order_type submit).2.1.transaction_history
        = st.transaction_history := by
  unfold execute_trade
  rw [hacc]
  exact ⟨rfl, rfl, rfl, rfl⟩

/-- C2 witness: the amended theorem at a concrete accepted submission. -/
theorem c2_witness :
    (execute_trade "WALLET" ⟨[("USDC", 9)], [], [], true⟩ "TOKEN" 4 "buy"
        (fun _ _ => SubmitOutcome.accepted 5)).1 = some 5
    ∧ (execute_trade "WALLET" ⟨[("USDC", 9)], [], [], true⟩ "TOKEN" 4 "buy"
        (fun _ _ => SubmitOutcome.accepted 5)).2.1.portfolio = [("USDC", 9)]
    ∧ (execute_trade "WALLET" ⟨[("USDC", 9)], [], [], true⟩ "TOKEN" 4 "buy"
        (fun _ _ => SubmitOutcome.accepted 5)).2.1.open_orders = []
    ∧ (execute_trade "WALLET" ⟨[("USDC", 9)], [], [], true⟩ "TOKEN" 4 "buy"
        (fun _ _ => SubmitOutcome.accepted 5)).2.1.transaction_history = [] :=
  c2_accepted_submission_mutates_nothing "WALLET" ⟨[("USDC", 9)], [], [], true⟩
    "TOKEN" 4 "buy" (fun _ _ => SubmitOutcome.accepted 5) 5 rfl

/-- C6 counterexample.  A transient failure: the submission oracle fails on
attempt 0 and would accept any later attempt, yet `execute_trade` returns
`None` after exactly one attempt — there is no retry and no backoff, so a
single transient failure immediately surfaces as an error. -/
theorem c6_cex_single_failure_surfaces :
    execute_trade "WALLET" ⟨[], [], [], true⟩ "TOKEN" 1 "buy"
        (fun k _ => if k = 0 then SubmitOutcome.rpcError
          else SubmitOutcome.accepted 9)
      = (none, ⟨[], [], [], true⟩, 1) :=
  rfl

/-- C6 (amended): on submission failure `execute_trade` does not retry: it
catches the exception, logs, and returns `None` after exactly one
submission attempt.  No bounded retry loop, no exponential backoff and no
`SubmissionFailed` value exist in the code (src/bot.py:95-97). -/
theorem c6_no_retry_on_failure (wallet : String) (st : TraderState)
    (token_address : String) (amount : ℚ) ( order_type : String)
    (submit : ℕ → TransferParams → SubmitOutcome)
    (hfail : submit 0 (buildTradeTx wallet token_address amount order_type)
      = SubmitOutcome.rpcError) :
    execute_trade wallet st token_address amount order_type submit
      = (none, st, 1) := by
  unfold execute_trade
  rw [hfail]

/-- C6 witness: the amended theorem at a concrete transiently-failing
oracle. -/
theorem c6_witness :
    execute_trade "WALLET" ⟨[], [], [], true⟩ "TOKEN" 3 "sell"
        (fun k _ => if k = 0 then SubmitOutcome.rpcError
          else SubmitOutcome.accepted 9)
      = (none, ⟨[], [], [], true⟩, 1) :=
  c6_no_retry_on_failure "WALLET" ⟨[], [], [], true⟩ "TOKEN" 3 "sell"
    (fun k _ => if k = 0 then SubmitOutcome.rpcError
      else SubmitOutcome.accepted 9) rfl

/-- C10: the transaction `execute_trade` builds and submits does not depend
on `order_type`: for every wallet, token address and amount it is the same
native transfer of `int(amount * 1e9)` lamports from the bot wallet to
`token_address` for "buy", "sell" and any other value, and consequently the
entire observable outcome of `execute_trade` is identical across
`order_type` values. -/
theorem c10_order_type_independent (wallet token_address : String)
    (amount : ℚ) (ot ot2 : String) (st : TraderState)
    (submit : ℕ → TransferParams → SubmitOutcome) :
    buildTradeTx wallet token_address amount ot
        = buildTradeTx wallet token_address amount ot2
    ∧ buildTradeTx wallet token_address amount ot
        = { from_pubkey := wallet
            to_pubkey := token_address
            lamports := pyInt (amount * 1000000000) }
    ∧ execute_trade wallet st token_address amount ot submit
        = execute_trade wallet st token_address amount ot2 submit :=
  ⟨rfl, rfl, rfl⟩

/-- One invocation of a handler wrapped by `AdvancedTrader.rate_limit`
(src/bot.py:156-168) on the per-user command-count table
`context.bot_data` with key `user_command_count` (a total map with default
0, matching `.get(user_id, 0)`).  The count is incremented first; the
wrapped handler runs only when the new count is not above 5, else the user
gets the rate-limit reply.  Returns the updated table and whether the
handler ran. -/
def rate_limit_call (counts : ℕ → ℕ) (user_id : ℕ) : (ℕ → ℕ) × Bool :=
  (fun u => if u = user_id then counts user_id + 1 else counts u,
   if counts user_id + 1 > 5 then false else true)

/-- `n` successive commands from one user through the `rate_limit` wrapper:
final table and the per-call outcomes in order. -/
def rl_calls (counts : ℕ → ℕ) (user_id : ℕ) : ℕ → (ℕ → ℕ) × List Bool
  | 0 => (counts, [])
  | n + 1 =>
      ((rate_limit_call (rl_calls counts user_id n).1 user_id).1,
       (rl_calls counts user_id n).2
         ++ [(rate_limit_call (rl_calls counts user_id n).1 user_id).2])

theorem rl_calls_count (u n : ℕ) :
    (rl_calls (fun _ => 0) u n).1 u = n := by
  induction n with
  | zero => rfl
  | succ n ih => simp [rl_calls, rate_limit_call, ih]

theorem rl_calls_results (u n : ℕ) :
    (rl_calls (fun _ => 0) u n).2
      = (List.range n).map (fun k => if k + 1 ≤ 5 then true else false) := by
  induction n with
  | zero => rfl
  | succ n ih =>
      rw [rl_calls, List.range_succ, List.map_append, ← ih]
      simp only [rate_limit_call, rl_calls_count, List.map_cons, List.map_nil]
      by_cases h : n + 1 ≤ 5
      · rw [if_neg (by omega : ¬ n + 1 > 5), if_pos h]
      · rw [if_pos (by omega : n + 1 > 5), if_neg h]

/-- C5 counterexample.  The counter is never reset: on the 100th command
from one user (far beyond any 60-second window) the handler is still
blocked, because the code keeps a bare per-user count with no timestamp,
no window and no reset (src/bot.py:160-166), so the claim that calls are
permitted again after the window elapses is false. -/
theorem c5_cex_no_window_reset :
    ((rl_calls (fun _ => 0) 0 100).2).getLast? = some false := by
  rw [rl_calls_results]
  rfl

/-- C5 (amended): for one identity the `rate_limit` gate permits exactly
the first 5 calls and denies the 6th and every later call: the outcome of
call number k+1 is allowed iff k+1 ≤ 5, for every call count n.  The
ceiling is hardcoded to 5, and there is no time window: the count never
resets, so denial is permanent for the process lifetime. -/
theorem c5_rate_limit_first_five_only (u n : ℕ) :
    (rl_calls (fun _ => 0) u n).2
      = (List.range n).map (fun k => if k + 1 ≤ 5 then true else false) :=
  rl_calls_results u n

/-- `self.portfolio.get(token, 0)` (src/bot.py:145): association-list
lookup with default 0. -/
def portfolio_get (p : List (String × ℚ)) (token : String) : ℚ :=
  match p.find? (fun e => e.1 == token) with
  | some e => e.2
  | none => 0

/-- `sum(self.portfolio.values())` (src/bot.py:137). -/
def total_value (p : List (String × ℚ)) : ℚ :=
  (p.map (fun e => e.2)).sum

/-- The hardcoded target allocation of `rebalance_portfolio`
(src/bot.py:138-142). -/
def target_allocation : List (String × ℚ) :=
  [("SOL", 6 / 10), ("USDC", 3 / 10), ("OTHER", 1 / 10)]

/-- The loop body of `rebalance_portfolio` for one token
(src/bot.py:144-149): compare the current allocation fraction to the
target with strict inequalities and issue one `execute_trade` call
(token, amount, side) on any difference. -/
def rebalance_trade (p : List (String × ℚ)) (tv : ℚ) (token : String)
    (target : ℚ) : List (String × ℚ × String) :=
  if portfolio_get p token / tv < target then
    [(token, (target - portfolio_get p token / tv) * tv, "buy")]
  else if portfolio_get p token / tv > target then
    [(token, (portfolio_get p token / tv - target) * tv, "sell")]
  else []

/-- One tick of `rebalance_portfolio` (src/bot.py:136-150): the
`execute_trade` calls it issues, in loop order.  A zero total value raises
`ZeroDivisionError` on the first token, the `except` swallows it and the
tick issues nothing (src/bot.py:151-153). -/
def rebalance_tick (p : List (String × ℚ)) : List (String × ℚ × String) :=
  if total_value p = 0 then []
  else (target_allocation.map
    (fun e => rebalance_trade p (total_value p) e.1 e.2)).flatten

theorem rebalance_trade_eq_nil (p : List (String × ℚ)) (tv : ℚ)
    (token : String) (target : ℚ) :
    rebalance_trade p tv token target = [] ↔
      portfolio_get p token / tv = target := by
  unfold rebalance_trade
  by_cases h1 : portfolio_get p token / tv < target
  · rw [if_pos h1]
    simp [ne_of_lt h1]
  · by_cases h2 : portfolio_get p token / tv > target
    · rw [if_neg h1, if_pos h2]
      simp [ne_of_gt h2]
    · rw [if_neg h1, if_neg h2]
      simp [le_antisymm (not_lt.mp h2) (not_lt.mp h1)]

/-- C7 counterexample.  A portfolio whose allocations deviate from target
by only 0.001 (0.1 percentage points) — inside any reasonable hysteresis
band — still triggers two corrective trades, so the claim that deviations
within the band issue zero trades, and that only deviations strictly above
a minimum rebalance threshold trade, is false: the code trades on every
nonzero deviation. -/
theorem c7_cex_tiny_deviation_trades :
    rebalance_tick [("SOL", 601 / 10), ("USDC", 299 / 10), ("OTHER", 10)]
      = [("SOL", 1 / 10, "sell"), ("USDC", 1 / 10, "buy")] := by
  simp [rebalance_tick, total_value, target_allocation, rebalance_trade,
    portfolio_get, List.find?]
  norm_num

/-- C7 (amended): against the hardcoded target map (not an arbitrary one),
one rebalancing tick issues zero trades exactly when every target token's
current allocation fraction equals its target exactly; any nonzero
deviation, however small, issues a corrective trade — there is no
hysteresis band and no minimum rebalance threshold. -/
theorem c7_rebalance_trades_iff_deviation (p : List (String × ℚ))
    (h : total_value p ≠ 0) :
    rebalance_tick p = [] ↔
      ∀ e ∈ target_allocation,
        portfolio_get p e.1 / total_value p = e.2 := by
  unfold rebalance_tick
  rw [if_neg h]
  simp [target_allocation, rebalance_trade_eq_nil]

/-- C7 witness: a portfolio exactly on target yields zero trades, through
the amended theorem at a concrete input. -/
theorem c7_witness :
    total_value [("SOL", (60 : ℚ)), ("USDC", 30), ("OTHER", 10)] ≠ 0
    ∧ (rebalance_tick [("SOL", 60), ("USDC", 30), ("OTHER", 10)] = [] ↔
        ∀ e ∈ target_allocation,
          portfolio_get [("SOL", 60), ("USDC", 30), ("OTHER", 10)] e.1
            / total_value [("SOL", 60), ("USDC", 30), ("OTHER", 10)] = e.2) :=
  ⟨by simp only [total_value]; norm_num,
   c7_rebalance_trades_iff_deviation
     [("SOL", 60), ("USDC", 30), ("OTHER", 10)]
     (by simp only [total_value]; norm_num)⟩

/-- Modelled from the spec: `get_dex_price` and `execute_arbitrage` are
called from `arbitrage_opportunity` but absent from src.  Per the spec,
prices are inputs from the external MarketDataSource, and the arbitrage
trade buys on the cheaper market and sells on the pricier one, so the
emitted event mirrors the call arguments `(buy market, sell market,
asset)` at src/bot.py:108,110.  The decision itself — strict comparison of
the relative spread against ARBITRAGE_THRESHOLD and the direction split —
is the source text of src/bot.py:106-110. -/
def arbitrage_tick (dex1_price dex2_price : ℚ) :
    Option (String × String × String) :=
  if |dex1_price - dex2_price| / min dex1_price dex2_price
      > ARBITRAGE_THRESHOLD then
    if dex1_price > dex2_price then some ("orca", "raydium", "SOL")
    else some ("raydium", "orca", "SOL")
  else none

/-- C8: the arbitrage boundary is excluded by strict inequality.  When the
relative spread equals ARBITRAGE_THRESHOLD exactly, no trade is issued;
when it is strictly greater, a trade is issued that buys on the cheaper
market and sells on the pricier one (dex1 is raydium, dex2 is orca). -/
theorem c8_arbitrage_strict_threshold (p1 p2 : ℚ) :
    (|p1 - p2| / min p1 p2 = ARBITRAGE_THRESHOLD →
      arbitrage_tick p1 p2 = none)
    ∧ (|p1 - p2| / min p1 p2 > ARBITRAGE_THRESHOLD → p2 < p1 →
      arbitrage_tick p1 p2 = some ("orca", "raydium", "SOL"))
    ∧ (|p1 - p2| / min p1 p2 > ARBITRAGE_THRESHOLD → p1 < p2 →
      arbitrage_tick p1 p2 = some ("raydium", "orca", "SOL")) := by
  refine ⟨fun h => ?_, fun h hgt => ?_, fun h hlt => ?_⟩
  · unfold arbitrage_tick
    rw [h, if_neg (lt_irrefl ARBITRAGE_THRESHOLD)]
  · unfold arbitrage_tick
    rw [if_pos h, if_pos hgt]
  · unfold arbitrage_tick
    rw [if_pos h, if_neg (not_lt.mpr (le_of_lt hlt))]

/-- C8 witness: prices 20 and 21 give relative spread exactly 1/20 = 0.05,
no trade; prices 20 and 22 give spread 1/10 > 0.05 with dex1 cheaper, so a
trade buying on raydium and selling on orca — through the theorem at
concrete inputs. -/
theorem c8_witness :
    arbitrage_tick 20 21 = none
    ∧ arbitrage_tick 20 22 = some ("raydium", "orca", "SOL") :=
  ⟨(c8_arbitrage_strict_threshold 20 21).1 (by norm_num [ARBITRAGE_THRESHOLD]),
   (c8_arbitrage_strict_threshold 20 22).2.2 (by norm_num [ARBITRAGE_THRESHOLD])
     (by norm_num)⟩

/-- Modelled from the spec: `get_order_book` and `place_limit_order` are
called from `market_making` but absent from src.  Per the spec, the order
book is an input from the external MarketDataSource — here its best bid
and best ask — and each placed limit order is an emitted OpenOrder
mirroring the call arguments `(pair, price, side)` at src/bot.py:127-128.
The decision itself — spread against SPREAD_TARGET, the mid price, and the
two quote prices — is the source text of src/bot.py:120-128. -/
def market_making_tick (best_bid best_ask : ℚ) :
    List (String × ℚ × String) :=
  if (best_ask - best_bid) / best_bid > SPREAD_TARGET then
    [("SOL", ((best_ask + best_bid) / 2) * (1 - SPREAD_TARGET / 2), "buy"),
     ("SOL", ((best_ask + best_bid) / 2) * (1 + SPREAD_TARGET / 2), "sell")]
  else []

/-- C9 counterexample.  With bid 100 and ask 103 the two placed prices are
100.485 and 102.515; each differs from the values 99 and 104 stated by the
spec by 1.485, more than 1, so the prices are not approximately 99 and
104. -/
theorem c9_cex_not_99_104 :
    (market_making_tick 100 103).map (fun o => o.2.1)
      = [20097 / 200, 20503 / 200]
    ∧ ¬(|(20097 / 200 : ℚ) - 99| ≤ 1)
    ∧ ¬(|(20503 / 200 : ℚ) - 104| ≤ 1) := by
  refine ⟨?_, ?_, ?_⟩
  · simp [market_making_tick, SPREAD_TARGET]
    norm_num
  · norm_num [abs_le]
  · norm_num [abs_le]

/-- C9 (amended): with best bid 100 and best ask 103 (spread 3 percent,
above SPREAD_TARGET) the market-making tick places exactly two limit
orders, a buy at mid*(1 - SPREAD_TARGET/2) = 100.485 and a sell at
mid*(1 + SPREAD_TARGET/2) = 102.515 with mid = 101.5 — not approximately
99 and 104 as the spec states. -/
theorem c9_market_making_scenario :
    market_making_tick 100 103
      = [("SOL", 20097 / 200, "buy"), ("SOL", 20503 / 200, "sell")]
    ∧ (20097 / 200 : ℚ) = (203 / 2) * (1 - SPREAD_TARGET / 2)
    ∧ (20503 / 200 : ℚ) = (203 / 2) * (1 + SPREAD_TARGET / 2)
    ∧ ((103 : ℚ) + 100) / 2 = 203 / 2 := by
  refine ⟨?_, ?_, ?_, ?_⟩
  · simp [market_making_tick, SPREAD_TARGET]
    norm_num
  · norm_num [SPREAD_TARGET]
  · norm_num [SPREAD_TARGET]
  · norm_num

/-- Modelled from the spec: the ChainWatcher whale-classification pass is
absent from src — src/bot.py only declares the WHALE_THRESHOLD constant
(src/bot.py:37).  Per spec section 4.1, a block scan walks the observed
transactions in order; each carries its sender and its USD-converted value
(transactions whose price lookup failed are skipped upstream and do not
appear).  A sender whose value reaches WHALE_THRESHOLD and is not yet in
the whale set is inserted and a notification for it is emitted; otherwise
nothing changes.  Returns the final whale set and the emitted
notifications in order. -/
def whale_scan (whales : List String) :
    List (String × ℚ) → List String × List String
  | [] => (whales, [])
  | tx :: rest =>
      if WHALE_THRESHOLD ≤ tx.2 ∧ ¬ tx.1 ∈ whales then
        ((whale_scan (tx.1 :: whales) rest).1,
         tx.1 :: (whale_scan (tx.1 :: whales) rest).2)
      else whale_scan whales rest

/-- Modelled from the spec: a sequence of block scans in one process
lifetime, the whale set carried from each scan to the next (spec section
3: append-only for the process lifetime, never deleted). -/
def whale_scan_blocks (whales : List String) :
    List (List (String × ℚ)) → List String × List String
  | [] => (whales, [])
  | b :: bs =>
      ((whale_scan_blocks (whale_scan whales b).1 bs).1,
       (whale_scan whales b).2
         ++ (whale_scan_blocks (whale_scan whales b).1 bs).2)

theorem whale_scan_mem_mono (txs : List (String × ℚ)) (whales : List String)
    (a : String) : a ∈ whales → a ∈ (whale_scan whales txs).1 := by
  induction txs generalizing whales with
  | nil => exact fun h => h
  | cons tx rest ih =>
      intro h
      by_cases hc : WHALE_THRESHOLD ≤ tx.2 ∧ ¬ tx.1 ∈ whales
      · simp only [whale_scan, if_pos hc]
        exact ih (tx.1 :: whales) (List.mem_cons_of_mem _ h)
      · simp only [whale_scan, if_neg hc]
        exact ih whales h

theorem whale_scan_notified_mem (txs : List (String × ℚ))
    (whales : List String) (a : String) :
    a ∈ (whale_scan whales txs).2 → a ∈ (whale_scan whales txs).1 := by
  induction txs generalizing whales with
  | nil => intro h; simp [whale_scan] at h
  | cons tx rest ih =>
      by_cases hc : WHALE_THRESHOLD ≤ tx.2 ∧ ¬ tx.1 ∈ whales
      · simp only [whale_scan, if_pos hc]
        intro h
        rcases List.mem_cons.mp h with rfl | h2
        · exact whale_scan_mem_mono rest _ _ (List.mem_cons_self _ _)
        · exact ih _ h2
      · simp only [whale_scan, if_neg hc]
        exact ih whales

theorem whale_scan_mem_not_notified (txs : List (String × ℚ))
    (whales : List String) (a : String) :
    a ∈ whales → ¬ a ∈ (whale_scan whales txs).2 := by
  induction txs generalizing whales with
  | nil => intro h; simp [whale_scan]
  | cons tx rest ih =>
      intro h
      by_cases hc : WHALE_THRESHOLD ≤ tx.2 ∧ ¬ tx.1 ∈ whales
      · simp only [whale_scan, if_pos hc]
        intro hmem
        rcases List.mem_cons.mp hmem with rfl | h2
        · exact hc.2 h
        · exact ih _ (List.mem_cons_of_mem _ h) h2
      · simp only [whale_scan, if_neg hc]
        exact ih whales h

theorem whale_scan_count_le_one (txs : List (String × ℚ))
    (whales : List String) (a : String) :
    List.count a (whale_scan whales txs).2 ≤ 1 := by
  induction txs generalizing whales with
  | nil => simp [whale_scan]
  | cons tx rest ih =>
      by_cases hc : WHALE_THRESHOLD ≤ tx.2 ∧ ¬ tx.1 ∈ whales
      · simp only [whale_scan, if_pos hc]
        by_cases ha : a = tx.1
        · subst ha
          rw [List.count_cons_self,
            List.count_eq_zero.mpr
              (whale_scan_mem_not_notified rest (tx.1 :: whales) tx.1
                (List.mem_cons_self tx.1 whales))]
        · rw [List.count_cons_of_ne ha]
          exact ih _
      · simp only [whale_scan, if_neg hc]
        exact ih whales

theorem whale_scan_nodup (txs : List (String × ℚ)) (whales : List String) :
    whales.Nodup → (whale_scan whales txs).1.Nodup := by
  induction txs generalizing whales with
  | nil => exact fun h => h
  | cons tx rest ih =>
      intro h
      by_cases hc : WHALE_THRESHOLD ≤ tx.2 ∧ ¬ tx.1 ∈ whales
      · simp only [whale_scan, if_pos hc]
        exact ih _ (List.nodup_cons.mpr ⟨hc.2, h⟩)
      · simp only [whale_scan, if_neg hc]
        exact ih _ h

theorem whale_scan_blocks_count (bs : List (List (String × ℚ)))
    (whales : List String) (a : String) :
    List.count a (whale_scan_blocks whales bs).2 ≤ 1
    ∧ (a ∈ whales → List.count a (whale_scan_blocks whales bs).2 = 0) := by
  induction bs generalizing whales with
  | nil => simp [whale_scan_blocks]
  | cons b bs ih =>
      constructor
      · simp only [whale_scan_blocks, List.count_append]
        by_cases hmem : a ∈ (whale_scan whales b).1
        · rw [(ih _).2 hmem]
          simpa using whale_scan_count_le_one b whales a
        · rw [List.count_eq_zero.mpr
            (fun hx => hmem (whale_scan_notified_mem b whales a hx))]
          simpa using (ih _).1
      · intro h
        simp only [whale_scan_blocks, List.count_append]
        rw [List.count_eq_zero.mpr (whale_scan_mem_not_notified b whales a h),
          (ih _).2 (whale_scan_mem_mono b whales a h)]

theorem whale_scan_blocks_nodup (bs : List (List (String × ℚ)))
    (whales : List String) :
    whales.Nodup → (whale_scan_blocks whales bs).1.Nodup := by
  induction bs generalizing whales with
  | nil => exact fun h => h
  | cons b bs ih => exact fun h => ih _ (whale_scan_nodup b whales h)

/-- C4: across any sequence of block scans in one process lifetime,
starting from the empty whale set, every wallet address is reported as a
newly-detected whale at most once — including repeated appearances of the
address in later blocks or within one scan batch — and the whale set never
holds a duplicate entry (set semantics). -/
theorem c4_whale_reported_at_most_once (bs : List (List (String × ℚ)))
    (a : String) :
    List.count a (whale_scan_blocks [] bs).2 ≤ 1
    ∧ (whale_scan_blocks [] bs).1.Nodup :=
  ⟨(whale_scan_blocks_count bs [] a).1,
   whale_scan_blocks_nodup bs [] List.nodup_nil⟩

end Bot
